import Mathlib

/-!
Verification development for the Scavenger Hunt quest & progression engine:
a shallow embedding of `utils/quest.py`, `utils/progress.py`,
`utils/completed.py`, `utils/projects.py` and the detection handler of
`app.py`, together with theorems settling the behavioural claims about them.

Modelling conventions:
* Python lists become Lean `List`s; Python sets are used by the source only
  through membership, insertion and subset tests, and are modelled by lists
  accessed through those operations (insertion skips existing elements, so
  set semantics is preserved).
* Python `int` becomes `Int` (or `Nat` where the source value is a count),
  `float` completion times are only ever compared, never computed with, so
  they are modelled by `Rat`.
* Calendar dates are modelled by their ordinal day number (`Int`); the source
  compares dates by string equality of `YYYY-MM-DD` forms and by
  `timedelta` subtraction, both of which agree with the ordinal model.
* Randomness (`random.shuffle`) is modelled by passing the shuffled pool as
  an explicit argument, constrained in theorems to be a permutation of the
  source pool.
* The current wall-clock date / timestamp is passed as an explicit argument.
-/

/-- `PREFERRED_CLASSES` from `utils/quest.py`: the fixed preferred-label pool
(36 distinct labels, biased toward indoor findable objects). -/
def PREFERRED_CLASSES : List String :=
  ["person", "cat", "dog", "cup", "bottle", "book", "chair",
   "laptop", "cell phone", "keyboard", "mouse", "remote", "clock",
   "backpack", "teddy bear", "scissors", "toothbrush", "apple",
   "banana", "orange", "couch", "potted plant", "bowl", "spoon",
   "fork", "vase", "bed", "tv", "sink", "refrigerator", "umbrella",
   "cake", "pizza", "donut", "sandwich", "carrot"]

/-- `generate_quest` from `utils/quest.py`. The source copies
`PREFERRED_CLASSES`, shuffles the copy in place, and returns `pool[:n]`.
The shuffle is modelled by receiving the shuffled pool explicitly;
theorems quantify over all permutations of `PREFERRED_CLASSES`. -/
def generate_quest (n : Nat) (shuffled : List String) : List String :=
  shuffled.take n

/-- `check_detections` from `utils/quest.py`: the list comprehension
`[name for name in detected_names if name in quest_items and name not in quest_found]`.
`quest_found` is a Python set read only through membership. -/
def check_detections (detected_names quest_items quest_found : List String) :
    List String :=
  detected_names.filter (fun name => decide (name ∈ quest_items ∧ name ∉ quest_found))

theorem check_detections_mem {d qi qf : List String} {x : String} :
    x ∈ check_detections d qi qf ↔ x ∈ d ∧ x ∈ qi ∧ x ∉ qf := by
  simp [check_detections, and_assoc]

theorem check_detections_count (d qi qf : List String) (lbl : String) :
    (check_detections d qi qf).count lbl =
      if lbl ∈ qi ∧ lbl ∉ qf then d.count lbl else 0 := by
  by_cases h : lbl ∈ qi ∧ lbl ∉ qf
  · rw [if_pos h]
    exact List.count_filter (by simpa using h)
  · rw [if_neg h]
    refine List.count_eq_zero.mpr fun hmem => ?_
    rcases check_detections_mem.mp hmem with ⟨_, h1, h2⟩
    exact h ⟨h1, h2⟩

theorem preferred_classes_nodup : PREFERRED_CLASSES.Nodup := by decide

theorem preferred_classes_length : PREFERRED_CLASSES.length = 36 := by decide

/-- The progression record persisted by `utils/progress.py` (`data/progress.json`).
Completion times are only ever compared, so `float` is modelled by `Rat`;
dates are modelled by ordinal day numbers. -/
structure ProgressRecord where
  streak : Int
  last_session_date : Option Int
  trophies : List String
  best_time : Option Rat
  total_quests_completed : Int
deriving DecidableEq, Repr

/-- `_DEFAULTS` from `utils/progress.py` as a plain record value (the aliasing
introduced by `_DEFAULTS.copy()` is modelled separately below). -/
def _DEFAULTS : ProgressRecord :=
  { streak := 0, last_session_date := none, trophies := [],
    best_time := none, total_quests_completed := 0 }

/-- `_STREAK_TROPHIES` from `utils/progress.py`: `(threshold, trophy_label)` pairs. -/
def _STREAK_TROPHIES : List (Int × String) :=
  [(3, "Hot Streak 🔥"), (7, "On Fire! 🔥🔥"), (30, "Legendary Streak 🌟")]

/-- `_QUEST_TROPHIES` from `utils/progress.py`: `(threshold, trophy_label)` pairs. -/
def _QUEST_TROPHIES : List (Int × String) :=
  [(1, "First Quest! 🏆"), (5, "Quest Master 🎯"), (10, "Explorer Elite 🌟")]

/-- `_unlock` from `utils/progress.py`: append `trophy` to `data["trophies"]`
and to the newly-unlocked accumulator unless it is already present.
The pair threads `(data, new_trophies)` exactly as the source does. -/
def _unlock (dn : ProgressRecord × List String) (trophy : String) :
    ProgressRecord × List String :=
  if trophy ∈ dn.1.trophies then dn
  else ({ dn.1 with trophies := dn.1.trophies ++ [trophy] }, dn.2 ++ [trophy])

/-- The best-time block of `on_quest_completed`: read `best_time`; if it is
`None` or the new time is strictly smaller, store the new time, and when a
previous best existed also unlock `"New Record! ⚡"`. -/
def bestTimePhase (completion_time : Rat) (d : ProgressRecord) :
    ProgressRecord × List String :=
  match d.best_time with
  | none => ({ d with best_time := some completion_time }, [])
  | some b =>
    if completion_time < b then
      _unlock ({ d with best_time := some completion_time }, []) "New Record! ⚡"
    else (d, [])

/-- The speed-run block of `on_quest_completed`: unlock `"Speed Run Star ⭐"`
when the completion time is at most 60 seconds. -/
def speedPhase (completion_time : Rat) (dn : ProgressRecord × List String) :
    ProgressRecord × List String :=
  if completion_time ≤ 60 then _unlock dn "Speed Run Star ⭐" else dn

/-- One milestone loop of `on_quest_completed`
(`for threshold, trophy in TABLE: if value >= threshold: _unlock(...)`),
where `cond` reads the compared field from the current record. -/
def milestoneFold (cond : ProgressRecord → Int → Bool)
    (table : List (Int × String)) (dn : ProgressRecord × List String) :
    ProgressRecord × List String :=
  table.foldl (fun dn tt => if cond dn.1 tt.1 then _unlock dn tt.2 else dn) dn

/-- `on_quest_completed` from `utils/progress.py`. `today` models
`date.today()`; the streak branch, date/counter updates, best-time block,
speed-run block and the two milestone loops follow the source in order. -/
def on_quest_completed (today : Int) (data : ProgressRecord)
    (completion_time : Rat) : ProgressRecord × List String :=
  let streak1 : Int :=
    match data.last_session_date with
    | none => 1
    | some last =>
      if last = today then data.streak
      else if today - last = 1 then data.streak + 1 else 1
  let d1 := { data with
    streak := streak1,
    last_session_date := some today,
    total_quests_completed := data.total_quests_completed + 1 }
  milestoneFold (fun r th => decide (th ≤ r.total_quests_completed)) _QUEST_TROPHIES
    (milestoneFold (fun r th => decide (th ≤ r.streak)) _STREAK_TROPHIES
      (speedPhase completion_time (bestTimePhase completion_time d1)))

/-- A sequence of quest completions: each call supplies the completion date
and the completion time, and the record returned by one call feeds the next. -/
def runCompletions (calls : List (Int × Rat)) (data : ProgressRecord) :
    ProgressRecord :=
  calls.foldl (fun d c => (on_quest_completed c.1 d c.2).1) data

theorem unlock_fst_streak (dn : ProgressRecord × List String) (tr : String) :
    (_unlock dn tr).1.streak = dn.1.streak := by
  unfold _unlock; split <;> rfl

theorem unlock_fst_best (dn : ProgressRecord × List String) (tr : String) :
    (_unlock dn tr).1.best_time = dn.1.best_time := by
  unfold _unlock; split <;> rfl

theorem unlock_trophies_grow (dn : ProgressRecord × List String) (tr : String) :
    dn.1.trophies <+: (_unlock dn tr).1.trophies := by
  unfold _unlock; split
  · exact ⟨[], by simp⟩
  · exact ⟨[tr], rfl⟩

theorem milestoneFold_fst_streak (cond : ProgressRecord → Int → Bool)
    (table : List (Int × String)) (dn : ProgressRecord × List String) :
    (milestoneFold cond table dn).1.streak = dn.1.streak := by
  induction table generalizing dn with
  | nil => rfl
  | cons tt table ih =>
    have hstep : milestoneFold cond (tt :: table) dn =
        milestoneFold cond table (if cond dn.1 tt.1 then _unlock dn tt.2 else dn) := rfl
    rw [hstep, ih]
    split <;> simp [unlock_fst_streak]

theorem milestoneFold_fst_best (cond : ProgressRecord → Int → Bool)
    (table : List (Int × String)) (dn : ProgressRecord × List String) :
    (milestoneFold cond table dn).1.best_time = dn.1.best_time := by
  induction table generalizing dn with
  | nil => rfl
  | cons tt table ih =>
    have hstep : milestoneFold cond (tt :: table) dn =
        milestoneFold cond table (if cond dn.1 tt.1 then _unlock dn tt.2 else dn) := rfl
    rw [hstep, ih]
    split <;> simp [unlock_fst_best]

theorem milestoneFold_trophies_grow (cond : ProgressRecord → Int → Bool)
    (table : List (Int × String)) (dn : ProgressRecord × List String) :
    dn.1.trophies <+: (milestoneFold cond table dn).1.trophies := by
  induction table generalizing dn with
  | nil => exact ⟨[], by simp [milestoneFold]⟩
  | cons tt table ih =>
    have hstep : milestoneFold cond (tt :: table) dn =
        milestoneFold cond table (if cond dn.1 tt.1 then _unlock dn tt.2 else dn) := rfl
    rw [hstep]
    refine List.IsPrefix.trans ?_ (ih _)
    split
    · exact unlock_trophies_grow _ _
    · exact ⟨[], by simp⟩

theorem speedPhase_fst_streak (t : Rat) (dn : ProgressRecord × List String) :
    (speedPhase t dn).1.streak = dn.1.streak := by
  unfold speedPhase; split <;> simp [unlock_fst_streak]

theorem speedPhase_fst_best (t : Rat) (dn : ProgressRecord × List String) :
    (speedPhase t dn).1.best_time = dn.1.best_time := by
  unfold speedPhase; split <;> simp [unlock_fst_best]

theorem speedPhase_trophies_grow (t : Rat) (dn : ProgressRecord × List String) :
    dn.1.trophies <+: (speedPhase t dn).1.trophies := by
  unfold speedPhase; split
  · exact unlock_trophies_grow _ _
  · exact ⟨[], by simp⟩

theorem bestTimePhase_fst_streak (t : Rat) (d : ProgressRecord) :
    (bestTimePhase t d).1.streak = d.streak := by
  unfold bestTimePhase; split
  · rfl
  · split <;> simp [unlock_fst_streak]

theorem bestTimePhase_trophies_grow (t : Rat) (d : ProgressRecord) :
    d.trophies <+: (bestTimePhase t d).1.trophies := by
  unfold bestTimePhase; split
  · exact ⟨[], by simp⟩
  · split
    · exact unlock_trophies_grow ({ d with best_time := some t }, []) _
    · exact ⟨[], by simp⟩

theorem bestTimePhase_best_le (t : Rat) (d : ProgressRecord) (b : Rat)
    (hb : d.best_time = some b) :
    ∃ c, (bestTimePhase t d).1.best_time = some c ∧ c ≤ b := by
  unfold bestTimePhase
  rw [hb]
  simp only
  by_cases h : t < b
  · rw [if_pos h]
    exact ⟨t, by simp [unlock_fst_best], le_of_lt h⟩
  · rw [if_neg h]
    exact ⟨b, hb, le_refl b⟩

theorem bestTimePhase_best_eq (t : Rat) (d : ProgressRecord) (b : Rat)
    (hb : d.best_time = some b) :
    (bestTimePhase t d).1.best_time = some (if t < b then t else b) := by
  unfold bestTimePhase
  rw [hb]
  simp only
  by_cases h : t < b
  · rw [if_pos h, if_pos h]
    simp [unlock_fst_best]
  · rw [if_neg h, if_neg h]
    exact hb

theorem on_quest_completed_fst_streak (today : Int) (data : ProgressRecord)
    (t : Rat) :
    (on_quest_completed today data t).1.streak =
      match data.last_session_date with
      | none => 1
      | some last =>
        if last = today then data.streak
        else if today - last = 1 then data.streak + 1 else 1 := by
  simp only [on_quest_completed, milestoneFold_fst_streak, speedPhase_fst_streak,
    bestTimePhase_fst_streak]

theorem on_quest_completed_trophies_grow (today : Int) (data : ProgressRecord)
    (t : Rat) :
    data.trophies <+: (on_quest_completed today data t).1.trophies := by
  have hq : on_quest_completed today data t =
      milestoneFold (fun r th => decide (th ≤ r.total_quests_completed))
        _QUEST_TROPHIES
        (milestoneFold (fun r th => decide (th ≤ r.streak)) _STREAK_TROPHIES
          (speedPhase t (bestTimePhase t { data with
            streak := match data.last_session_date with
              | none => 1
              | some last =>
                if last = today then data.streak
                else if today - last = 1 then data.streak + 1 else 1,
            last_session_date := some today,
            total_quests_completed := data.total_quests_completed + 1 }))) := rfl
  rw [hq]
  exact (((bestTimePhase_trophies_grow t { data with
      streak := match data.last_session_date with
        | none => 1
        | some last =>
          if last = today then data.streak
          else if today - last = 1 then data.streak + 1 else 1,
      last_session_date := some today,
      total_quests_completed := data.total_quests_completed + 1 }).trans
    (speedPhase_trophies_grow t _)).trans
      (milestoneFold_trophies_grow _ _ _)).trans
        (milestoneFold_trophies_grow _ _ _)

theorem on_quest_completed_best_eq (today : Int) (data : ProgressRecord)
    (t : Rat) (b : Rat) (hb : data.best_time = some b) :
    (on_quest_completed today data t).1.best_time =
      some (if t < b then t else b) := by
  simp only [on_quest_completed, milestoneFold_fst_best, speedPhase_fst_best]
  exact bestTimePhase_best_eq t _ b hb

theorem on_quest_completed_best_le (today : Int) (data : ProgressRecord)
    (t : Rat) (b : Rat) (hb : data.best_time = some b) :
    ∃ c, (on_quest_completed today data t).1.best_time = some c ∧ c ≤ b := by
  refine ⟨if t < b then t else b, on_quest_completed_best_eq today data t b hb, ?_⟩
  split
  · exact le_of_lt (by assumption)
  · exact le_refl b

/-- **C3**: `on_quest_completed` updates the streak exactly per the streak law:
null `last_play_date` gives streak 1; `last_play_date = today` leaves the
streak unchanged; a gap of exactly one day increments it by exactly 1; every
other case (gap greater than one day, or a `last_play_date` in the future)
resets it to 1. -/
theorem streak_law (today : Int) (data : ProgressRecord) (t : Rat) :
    (data.last_session_date = none →
      (on_quest_completed today data t).1.streak = 1) ∧
    (data.last_session_date = some today →
      (on_quest_completed today data t).1.streak = data.streak) ∧
    (∀ d, data.last_session_date = some d → today - d = 1 →
      (on_quest_completed today data t).1.streak = data.streak + 1) ∧
    (∀ d, data.last_session_date = some d → d ≠ today → today - d ≠ 1 →
      (on_quest_completed today data t).1.streak = 1) := by
  refine ⟨fun h => ?_, fun h => ?_, fun d h hgap => ?_, fun d h hne hgap => ?_⟩
  · rw [on_quest_completed_fst_streak, h]
  · rw [on_quest_completed_fst_streak, h]
    simp
  · rw [on_quest_completed_fst_streak, h]
    have hd : d ≠ today := by
      intro he
      rw [he, sub_self] at hgap
      exact one_ne_zero hgap.symm
    simp only
    rw [if_neg hd, if_pos hgap]
  · rw [on_quest_completed_fst_streak, h]
    simp only
    rw [if_neg hne, if_neg hgap]

/-- Witness for `streak_law`: completing on day 5 with `last_play_date = 4`
increments the streak from 3 to 4. -/
theorem streak_law_witness :
    (on_quest_completed 5
      { streak := 3, last_session_date := some 4, trophies := [],
        best_time := none, total_quests_completed := 0 } 45).1.streak = 3 + 1 :=
  (streak_law 5
    { streak := 3, last_session_date := some 4, trophies := [],
      best_time := none, total_quests_completed := 0 } 45).2.2.1 4 rfl (by decide)

/-- **C7**: across any sequence of `on_quest_completed` calls the trophies
list only grows — the input list is a prefix of the output list, so no id is
ever removed and insertion order is preserved — and `best_time` never
increases; at each single step it is replaced exactly when the new completion
time is strictly smaller (or kept when not), and a missing best is always
filled. -/
theorem trophies_grow_best_monotone (data : ProgressRecord)
    (calls : List (Int × Rat)) :
    (data.trophies <+: (runCompletions calls data).trophies) ∧
    (∀ b, data.best_time = some b →
      ∃ c, (runCompletions calls data).best_time = some c ∧ c ≤ b) ∧
    (∀ today t b, data.best_time = some b →
      (on_quest_completed today data t).1.best_time =
        some (if t < b then t else b)) := by
  refine ⟨?_, ?_, fun today t b hb => on_quest_completed_best_eq today data t b hb⟩
  · induction calls generalizing data with
    | nil => exact ⟨[], by simp [runCompletions]⟩
    | cons c calls ih =>
      have hstep : runCompletions (c :: calls) data =
          runCompletions calls (on_quest_completed c.1 data c.2).1 := rfl
      rw [hstep]
      exact List.IsPrefix.trans (on_quest_completed_trophies_grow c.1 data c.2) (ih _)
  · induction calls generalizing data with
    | nil =>
      intro b hb
      exact ⟨b, by simpa [runCompletions] using hb, le_refl b⟩
    | cons c calls ih =>
      intro b hb
      have hstep : runCompletions (c :: calls) data =
          runCompletions calls (on_quest_completed c.1 data c.2).1 := rfl
      obtain ⟨c1, hc1, hle1⟩ := on_quest_completed_best_le c.1 data c.2 b hb
      obtain ⟨c2, hc2, hle2⟩ := ih _ c1 hc1
      exact ⟨c2, hstep ▸ hc2, le_trans hle2 hle1⟩

/-- Witness for `trophies_grow_best_monotone`: a record with one trophy and a
best of 50 seconds, run through completions on days 10 and 11. -/
theorem trophies_grow_best_monotone_witness :
    (["Hot Streak 🔥"] <+:
      (runCompletions [(10, 45), (11, 70)]
        { streak := 2, last_session_date := some 9,
          trophies := ["Hot Streak 🔥"], best_time := some 50,
          total_quests_completed := 4 }).trophies) ∧
    (∃ c, (runCompletions [(10, 45), (11, 70)]
        { streak := 2, last_session_date := some 9,
          trophies := ["Hot Streak 🔥"], best_time := some 50,
          total_quests_completed := 4 }).best_time = some c ∧ c ≤ 50) ∧
    ((on_quest_completed 10
        { streak := 2, last_session_date := some 9,
          trophies := ["Hot Streak 🔥"], best_time := some 50,
          total_quests_completed := 4 } 45).1.best_time =
      some (if (45 : Rat) < 50 then 45 else 50)) := by
  refine ⟨?_, ?_, ?_⟩
  · exact (trophies_grow_best_monotone
      { streak := 2, last_session_date := some 9,
        trophies := ["Hot Streak 🔥"], best_time := some 50,
        total_quests_completed := 4 } [(10, 45), (11, 70)]).1
  · exact (trophies_grow_best_monotone
      { streak := 2, last_session_date := some 9,
        trophies := ["Hot Streak 🔥"], best_time := some 50,
        total_quests_completed := 4 } [(10, 45), (11, 70)]).2.1 50 rfl
  · exact (trophies_grow_best_monotone
      { streak := 2, last_session_date := some 9,
        trophies := ["Hot Streak 🔥"], best_time := some 50,
        total_quests_completed := 4 } [(10, 45), (11, 70)]).2.2 10 45 50 rfl

/-- The mutable module-level state of `utils/progress.py` relevant when no
store file exists: the contents of the list object stored at
`_DEFAULTS["trophies"]`. All other `_DEFAULTS` values are immutable Python
objects (ints, `None`), so only the trophies list can be mutated in place. -/
structure ProgressWorld where
  defaultsTrophies : List String
deriving DecidableEq, Repr

/-- A progression record as returned by `load_progress`: a Python dict whose
`"trophies"` value is either the shared `_DEFAULTS` list object
(`trophiesShared = true`, contents held by the `ProgressWorld`) or a list
owned by this record alone. -/
structure ProgressRecordRef where
  streak : Int
  last_session_date : Option Int
  trophiesShared : Bool
  ownTrophies : List String
  best_time : Option Rat
  total_quests_completed : Int
deriving DecidableEq, Repr

/-- Read the trophies list of a record through the heap. -/
def derefTrophies (w : ProgressWorld) (r : ProgressRecordRef) : List String :=
  if r.trophiesShared then w.defaultsTrophies else r.ownTrophies

/-- `load_progress` from `utils/progress.py` on the no-store-file path:
`return _DEFAULTS.copy()`. `dict.copy()` is shallow, so the returned dict's
`"trophies"` value is the very list object stored in `_DEFAULTS`. -/
def load_progress_nofile : ProgressRecordRef :=
  { streak := 0, last_session_date := none, trophiesShared := true,
    ownTrophies := [], best_time := none, total_quests_completed := 0 }

/-- View a record reference as a plain value record (reading trophies through
the heap). -/
def derefRecord (w : ProgressWorld) (r : ProgressRecordRef) : ProgressRecord :=
  { streak := r.streak, last_session_date := r.last_session_date,
    trophies := derefTrophies w r, best_time := r.best_time,
    total_quests_completed := r.total_quests_completed }

/-- `on_quest_completed` acting on a record returned by `load_progress`,
heap effects included. The source mutates the dict's scalar keys (per-dict,
never shared) and appends to the trophies list object in place via
`_unlock`; when that object is the shared `_DEFAULTS` list, the appends land
in `_DEFAULTS` itself. The net effect of one call equals running the pure
`on_quest_completed` on the dereferenced record and writing the resulting
trophies back through the reference. -/
def on_quest_completed_ref (today : Int) (r : ProgressRecordRef) (t : Rat)
    (w : ProgressWorld) : ProgressRecordRef × List String × ProgressWorld :=
  let res := on_quest_completed today (derefRecord w r) t
  let r2 : ProgressRecordRef :=
    { streak := res.1.streak, last_session_date := res.1.last_session_date,
      trophiesShared := r.trophiesShared,
      ownTrophies := if r.trophiesShared then r.ownTrophies else res.1.trophies,
      best_time := res.1.best_time,
      total_quests_completed := res.1.total_quests_completed }
  if r.trophiesShared then (r2, res.2, { defaultsTrophies := res.1.trophies })
  else (r2, res.2, w)

/-- **C6 is violated by the code**: with no store file ever present, load a
record, run one completion through it, then load again — the second
`load_progress` result shows the trophies unlocked by the first record,
because `_DEFAULTS.copy()` shares the `_DEFAULTS` trophies list and
`_unlock` appends to it in place. The claimed behaviour would give `[]`. -/
theorem load_progress_defaults_polluted :
    derefTrophies
      (on_quest_completed_ref 0 load_progress_nofile 45
        { defaultsTrophies := [] }).2.2
      load_progress_nofile = ["Speed Run Star ⭐", "First Quest! 🏆"] ∧
    ["Speed Run Star ⭐", "First Quest! 🏆"] ≠ ([] : List String) := by
  constructor
  · rfl
  · decide

/-- A completed-project record as stored by `utils/completed.py`
(`data/completed_projects.json`). `completed_at` is the ISO timestamp string. -/
structure CompletedRecord where
  title : String
  emoji : String
  stem_tag : String
  difficulty : String
  time_est : String
  tagline : String
  completed_at : String
  objects_detected : List String
deriving DecidableEq, Repr

/-- The project dict passed to `save_completed_project`: every field is read
with `project.get(key, default)`, so each may be absent. -/
structure ProjectInput where
  title : Option String
  emoji : Option String
  stem_tag : Option String
  difficulty : Option String
  time_est : Option String
  tagline : Option String
  objects_detected : Option (List String)
deriving DecidableEq, Repr

/-- The record construction inside `save_completed_project`; `now` models
`datetime.now().isoformat(timespec="seconds")`. -/
def mkCompletedRecord (now : String) (project : ProjectInput) : CompletedRecord :=
  { title := project.title.getD "Unknown",
    emoji := project.emoji.getD "🛠️",
    stem_tag := project.stem_tag.getD "",
    difficulty := project.difficulty.getD "",
    time_est := project.time_est.getD "",
    tagline := project.tagline.getD "",
    completed_at := now,
    objects_detected := project.objects_detected.getD [] }

/-- `save_completed_project` from `utils/completed.py`: load the stored list,
return it unchanged when `project.get("title")` is already among the stored
titles (`None` is never among them, since stored titles are strings),
otherwise append the freshly built record. -/
def save_completed_project (now : String) (project : ProjectInput)
    (records : List CompletedRecord) : List CompletedRecord :=
  match project.title with
  | some t =>
    if t ∈ records.map (fun r => r.title) then records
    else records ++ [mkCompletedRecord now project]
  | none => records ++ [mkCompletedRecord now project]

theorem save_mem_noop (now : String) (p : ProjectInput)
    (records : List CompletedRecord) (t : String) (h : p.title = some t)
    (hmem : t ∈ records.map (fun r => r.title)) :
    save_completed_project now p records = records := by
  unfold save_completed_project
  rw [h]
  simp only [if_pos hmem]

/-- **C9**: saving a project whose title is already stored is a no-op (and
raises no error: the operation is total), and saving twice with the same
title starting from a store without it yields exactly one record with that
title. -/
theorem save_completed_project_idempotent (now1 now2 : String)
    (p1 p2 : ProjectInput) (records : List CompletedRecord) (t : String) :
    (p1.title = some t → t ∈ records.map (fun r => r.title) →
      save_completed_project now1 p1 records = records) ∧
    (p1.title = some t → p2.title = some t →
      t ∉ records.map (fun r => r.title) →
      ((save_completed_project now2 p2
          (save_completed_project now1 p1 records)).map
        (fun r => r.title)).count t = 1) := by
  constructor
  · intro h1 hmem
    exact save_mem_noop now1 p1 records t h1 hmem
  · intro h1 h2 hnot
    have hfirst : save_completed_project now1 p1 records =
        records ++ [mkCompletedRecord now1 p1] := by
      unfold save_completed_project
      rw [h1]
      simp only [if_neg hnot]
    have htitle : (mkCompletedRecord now1 p1).title = t := by
      simp [mkCompletedRecord, h1]
    have hmem2 : t ∈ (save_completed_project now1 p1 records).map
        (fun r => r.title) := by
      rw [hfirst]
      simp [htitle]
    have hsecond : save_completed_project now2 p2
        (save_completed_project now1 p1 records) =
        save_completed_project now1 p1 records :=
      save_mem_noop now2 p2 _ t h2 hmem2
    rw [hsecond, hfirst]
    rw [List.map_append, List.count_append]
    rw [List.count_eq_zero.mpr hnot]
    simp [htitle]

/-- Witness for `save_completed_project_idempotent`: re-saving a stored title
is a no-op, and double-saving a fresh title stores it exactly once. -/
theorem save_completed_project_idempotent_witness :
    (save_completed_project "2024-01-02T10:00:00"
        { title := some "Gas Law Demonstrator", emoji := none, stem_tag := none,
          difficulty := none, time_est := none, tagline := none,
          objects_detected := none }
        [{ title := "Gas Law Demonstrator", emoji := "🎈", stem_tag := "Science",
           difficulty := "Easy", time_est := "20 mins", tagline := "",
           completed_at := "2024-01-01T09:00:00",
           objects_detected := ["bottle"] }] =
      [{ title := "Gas Law Demonstrator", emoji := "🎈", stem_tag := "Science",
         difficulty := "Easy", time_est := "20 mins", tagline := "",
         completed_at := "2024-01-01T09:00:00",
         objects_detected := ["bottle"] }]) ∧
    (((save_completed_project "2024-01-02T11:00:00"
        { title := some "Gas Law Demonstrator", emoji := none, stem_tag := none,
          difficulty := none, time_est := none, tagline := none,
          objects_detected := none }
        (save_completed_project "2024-01-02T10:00:00"
          { title := some "Gas Law Demonstrator", emoji := none, stem_tag := none,
            difficulty := none, time_est := none, tagline := none,
            objects_detected := none }
          [])).map (fun r => r.title)).count "Gas Law Demonstrator" = 1) := by
  constructor
  · exact (save_completed_project_idempotent "2024-01-02T10:00:00" "x"
      { title := some "Gas Law Demonstrator", emoji := none, stem_tag := none,
        difficulty := none, time_est := none, tagline := none,
        objects_detected := none }
      { title := some "Gas Law Demonstrator", emoji := none, stem_tag := none,
        difficulty := none, time_est := none, tagline := none,
        objects_detected := none }
      [{ title := "Gas Law Demonstrator", emoji := "🎈", stem_tag := "Science",
         difficulty := "Easy", time_est := "20 mins", tagline := "",
         completed_at := "2024-01-01T09:00:00",
         objects_detected := ["bottle"] }]
      "Gas Law Demonstrator").1 rfl (by decide)
  · exact (save_completed_project_idempotent "2024-01-02T10:00:00"
      "2024-01-02T11:00:00"
      { title := some "Gas Law Demonstrator", emoji := none, stem_tag := none,
        difficulty := none, time_est := none, tagline := none,
        objects_detected := none }
      { title := some "Gas Law Demonstrator", emoji := none, stem_tag := none,
        difficulty := none, time_est := none, tagline := none,
        objects_detected := none }
      [] "Gas Law Demonstrator").2 rfl rfl (by decide)

/-- The per-session quest state kept in `st.session_state` by `app.py`, as
read and written by `_handle_detections`. `quest_found` is a Python set,
modelled as a list grown by `add` (insert only when absent). -/
structure Session where
  quest_items : List String
  quest_found : List String
  session_score : Int
  quest_completed : Bool
deriving DecidableEq, Repr

/-- `found.add(name)` on a Python set, in the list model. -/
def setAdd (l : List String) (x : String) : List String :=
  if x ∈ l then l else l ++ [x]

/-- `_handle_detections` from `app.py`, restricted to the session state it
mutates and the events it emits: returns the updated session, whether the
completion branch fired (fanfare, balloons, and the progress-store update,
which happen exactly then), and whether the tick sound fired. Rendering is
omitted; `detected_names` is the list of detection class names. -/
def _handle_detections (detected_names : List String) (s : Session) :
    Session × Bool × Bool :=
  let newly_found := check_detections detected_names s.quest_items s.quest_found
  let bonus_names := detected_names.filter (fun n => decide (n ∉ s.quest_items))
  let found2 := newly_found.foldl setAdd s.quest_found
  let score2 := s.session_score + 50 * newly_found.length + 5 * bonus_names.length
  let all_found := s.quest_items.all (fun i => decide (i ∈ found2))
  if all_found ∧ ¬s.quest_completed then
    ({ s with
        quest_found := found2
        session_score := score2
        quest_completed := true }, true, false)
  else
    ({ s with
        quest_found := found2
        session_score := score2 }, false, decide (newly_found ≠ []))

/-- `quest_items ⊆ quest_found` as computed by `_handle_detections`
(`set(quest_items) <= st.session_state.quest_found`). -/
def covered (s : Session) : Bool :=
  s.quest_items.all (fun i => decide (i ∈ s.quest_found))

/-- Process a sequence of detection batches within one quest (no reset). -/
def runDetections (batches : List (List String)) (s : Session) : Session :=
  batches.foldl (fun s d => (_handle_detections d s).1) s

/-- The session after the first `i` batches. -/
def sessionAfter (batches : List (List String)) (s : Session) (i : Nat) :
    Session :=
  runDetections (batches.take i) s

/-- Whether the completion branch fires while processing batch `i`. -/
def firedAt (batches : List (List String)) (s : Session) (i : Nat) : Bool :=
  (_handle_detections (batches.getD i []) (sessionAfter batches s i)).2.1

theorem setAdd_mem {l : List String} {x y : String} (h : x ∈ l) :
    x ∈ setAdd l y := by
  unfold setAdd; split
  · exact h
  · exact List.mem_append_left _ h

theorem setAdd_nodup {l : List String} {y : String} (h : l.Nodup) :
    (setAdd l y).Nodup := by
  unfold setAdd; split
  · exact h
  · next hy =>
    rw [List.nodup_append]
    refine ⟨h, List.nodup_singleton y, ?_⟩
    intro a ha hay
    rw [List.mem_singleton] at hay
    subst hay
    exact hy ha

theorem foldl_setAdd_mem {l : List String} {x : String} (xs : List String)
    (h : x ∈ l) : x ∈ xs.foldl setAdd l := by
  induction xs generalizing l with
  | nil => exact h
  | cons y ys ih => exact ih (setAdd_mem h)

theorem foldl_setAdd_nodup {l : List String} (xs : List String)
    (h : l.Nodup) : (xs.foldl setAdd l).Nodup := by
  induction xs generalizing l with
  | nil => exact h
  | cons y ys ih => exact ih (setAdd_nodup h)

theorem handle_detections_items (d : List String) (s : Session) :
    (_handle_detections d s).1.quest_items = s.quest_items := by
  simp only [_handle_detections]
  split <;> rfl

theorem handle_detections_found (d : List String) (s : Session) :
    (_handle_detections d s).1.quest_found =
      (check_detections d s.quest_items s.quest_found).foldl setAdd
        s.quest_found := by
  simp only [_handle_detections]
  split <;> rfl

theorem handle_detections_score (d : List String) (s : Session) :
    (_handle_detections d s).1.session_score =
      s.session_score
        + 50 * (check_detections d s.quest_items s.quest_found).length
        + 5 * (d.filter (fun n => decide (n ∉ s.quest_items))).length := by
  simp only [_handle_detections]
  split <;> rfl

theorem handle_detections_completed (d : List String) (s : Session) :
    (_handle_detections d s).1.quest_completed =
      (s.quest_completed || covered (_handle_detections d s).1) := by
  rw [show covered (_handle_detections d s).1 =
      (_handle_detections d s).1.quest_items.all
        (fun i => decide (i ∈ (_handle_detections d s).1.quest_found)) from rfl,
    handle_detections_items, handle_detections_found]
  simp only [_handle_detections]
  split
  · next h => simp [h.1]
  · next h =>
    by_cases hc : s.quest_completed
    · simp [hc]
    · have : ¬(s.quest_items.all (fun i => decide (i ∈
          (check_detections d s.quest_items s.quest_found).foldl setAdd
            s.quest_found)) = true) := fun hall => h ⟨hall, hc⟩
      simp [hc, this]

theorem handle_detections_fired (d : List String) (s : Session) :
    (_handle_detections d s).2.1 =
      (covered (_handle_detections d s).1 && !s.quest_completed) := by
  rw [show covered (_handle_detections d s).1 =
      (_handle_detections d s).1.quest_items.all
        (fun i => decide (i ∈ (_handle_detections d s).1.quest_found)) from rfl,
    handle_detections_items, handle_detections_found]
  simp only [_handle_detections]
  split
  · next h => simp [h.1, h.2]
  · next h =>
    by_cases hc : s.quest_completed
    · simp [hc]
    · have : ¬(s.quest_items.all (fun i => decide (i ∈
          (check_detections d s.quest_items s.quest_found).foldl setAdd
            s.quest_found)) = true) := fun hall => h ⟨hall, hc⟩
      simp [hc, this]

theorem covered_step (d : List String) (s : Session) (h : covered s = true) :
    covered (_handle_detections d s).1 = true := by
  rw [show covered (_handle_detections d s).1 =
      (_handle_detections d s).1.quest_items.all
        (fun i => decide (i ∈ (_handle_detections d s).1.quest_found)) from rfl,
    handle_detections_items, handle_detections_found]
  rw [covered] at h
  rw [List.all_eq_true] at h ⊢
  intro i hi
  have := h i hi
  simp only [decide_eq_true_eq] at this ⊢
  exact foldl_setAdd_mem _ this

theorem sessionAfter_zero (batches : List (List String)) (s : Session) :
    sessionAfter batches s 0 = s := rfl

theorem sessionAfter_succ (batches : List (List String)) (s : Session)
    (i : Nat) (h : i < batches.length) :
    sessionAfter batches s (i + 1) =
      (_handle_detections (batches.getD i []) (sessionAfter batches s i)).1 := by
  unfold sessionAfter runDetections
  rw [List.take_succ, List.foldl_append, List.getElem?_eq_getElem h]
  have hd : batches.getD i [] = batches[i] := by
    simp [List.getD_eq_getElem?_getD, List.getElem?_eq_getElem h]
  rw [hd]
  rfl

theorem covAfter_mono (batches : List (List String)) (s0 : Session)
    (i j : Nat) (hij : i ≤ j) (hj : j ≤ batches.length)
    (hc : covered (sessionAfter batches s0 i) = true) :
    covered (sessionAfter batches s0 j) = true := by
  induction j with
  | zero =>
    have : i = 0 := Nat.le_zero.mp hij
    rw [← this]; exact hc
  | succ j ih =>
    rcases Nat.lt_or_ge i (j + 1) with hlt | hge
    · have hcj := ih (Nat.lt_succ_iff.mp hlt) (Nat.le_of_succ_le hj)
      rw [sessionAfter_succ batches s0 j (Nat.lt_of_succ_le hj)]
      exact covered_step _ _ hcj
    · have heq : i = j + 1 := Nat.le_antisymm hij hge
      rw [← heq]; exact hc

theorem completedAfter_iff (batches : List (List String)) (s0 : Session)
    (h0 : s0.quest_completed = false) (i : Nat) (hi : i ≤ batches.length) :
    ((sessionAfter batches s0 i).quest_completed = true ↔
      1 ≤ i ∧ covered (sessionAfter batches s0 i) = true) := by
  induction i with
  | zero =>
    rw [sessionAfter_zero, h0]
    simp
  | succ i ih =>
    have hstep := sessionAfter_succ batches s0 i (Nat.lt_of_succ_le hi)
    rw [hstep, handle_detections_completed, Bool.or_eq_true]
    constructor
    · rintro (hci | hcov)
      · have hc := ((ih (Nat.le_of_succ_le hi)).mp hci).2
        exact ⟨Nat.succ_le_succ (Nat.zero_le i), hstep ▸ covered_step _ _ hc⟩
      · exact ⟨Nat.succ_le_succ (Nat.zero_le i), hstep ▸ hcov⟩
    · rintro ⟨-, hcov⟩
      exact Or.inr (hstep ▸ hcov)

/-- **C8**: within one quest (no reset), starting from a session that is not
yet completed and whose targets are not yet all found, the completion signal
fires exactly on the batch whose processing first makes the found set cover
the targets, fires at most once over the whole sequence, and the completed
flag never reverts to false once set. -/
theorem completion_fires_exactly_once (batches : List (List String))
    (s0 : Session) (h0 : s0.quest_completed = false)
    (hcov0 : covered s0 = false) :
    (∀ i, i < batches.length →
      (firedAt batches s0 i = true ↔
        (covered (sessionAfter batches s0 (i + 1)) = true ∧
         covered (sessionAfter batches s0 i) = false))) ∧
    (∀ i j, i < batches.length → j < batches.length →
      firedAt batches s0 i = true → firedAt batches s0 j = true → i = j) ∧
    (∀ i j, i ≤ j → j ≤ batches.length →
      (sessionAfter batches s0 i).quest_completed = true →
      (sessionAfter batches s0 j).quest_completed = true) := by
  have hcompl_iff : ∀ i, i ≤ batches.length →
      ((sessionAfter batches s0 i).quest_completed = false ↔
        covered (sessionAfter batches s0 i) = false) := by
    intro i hi
    rw [← Bool.not_eq_true, completedAfter_iff batches s0 h0 i hi]
    constructor
    · intro hn
      cases hcov : covered (sessionAfter batches s0 i) with
      | false => rfl
      | true =>
        exfalso
        cases i with
        | zero =>
          rw [sessionAfter_zero, hcov0] at hcov
          exact Bool.false_ne_true hcov
        | succ k => exact hn ⟨Nat.succ_le_succ (Nat.zero_le k), hcov⟩
    · intro hf
      simp [hf]
  have key : ∀ i, i < batches.length →
      (firedAt batches s0 i = true ↔
        (covered (sessionAfter batches s0 (i + 1)) = true ∧
         covered (sessionAfter batches s0 i) = false)) := by
    intro i hi
    have hstep := sessionAfter_succ batches s0 i hi
    unfold firedAt
    rw [handle_detections_fired, ← hstep, Bool.and_eq_true, Bool.not_eq_true']
    exact and_congr_right fun _ => hcompl_iff i (Nat.le_of_lt hi)
  refine ⟨key, ?_, ?_⟩
  · intro i j hi hj hfi hfj
    rcases lt_trichotomy i j with hlt | heq | hgt
    · exfalso
      have h1 := (key i hi).mp hfi
      have h2 := (key j hj).mp hfj
      have hcj : covered (sessionAfter batches s0 j) = true :=
        covAfter_mono batches s0 (i + 1) j hlt (Nat.le_of_lt hj) h1.1
      rw [h2.2] at hcj
      exact Bool.false_ne_true hcj
    · exact heq
    · exfalso
      have h1 := (key j hj).mp hfj
      have h2 := (key i hi).mp hfi
      have hci : covered (sessionAfter batches s0 i) = true :=
        covAfter_mono batches s0 (j + 1) i hgt (Nat.le_of_lt hi) h1.1
      rw [h2.2] at hci
      exact Bool.false_ne_true hci
  · intro i j hij hj hc
    have h1 := (completedAfter_iff batches s0 h0 i (le_trans hij hj)).mp hc
    exact (completedAfter_iff batches s0 h0 j hj).mpr
      ⟨le_trans h1.1 hij, covAfter_mono batches s0 i j hij hj h1.2⟩

/-- Witness for `completion_fires_exactly_once`: quest `{cup, book}` with
batches `[cup]`, `[banana]`, `[book]`, `[book]` — completion fires on the
third batch only, and the completed flag stays set. -/
theorem completion_fires_exactly_once_witness :
    (firedAt [["cup"], ["banana"], ["book"], ["book"]]
        { quest_items := ["cup", "book"], quest_found := [],
          session_score := 0, quest_completed := false } 2 = true ↔
      (covered (sessionAfter [["cup"], ["banana"], ["book"], ["book"]]
          { quest_items := ["cup", "book"], quest_found := [],
            session_score := 0, quest_completed := false } 3) = true ∧
       covered (sessionAfter [["cup"], ["banana"], ["book"], ["book"]]
          { quest_items := ["cup", "book"], quest_found := [],
            session_score := 0, quest_completed := false } 2) = false)) ∧
    (2 = 2) ∧
    ((sessionAfter [["cup"], ["banana"], ["book"], ["book"]]
        { quest_items := ["cup", "book"], quest_found := [],
          session_score := 0, quest_completed := false } 4).quest_completed =
      true) := by
  refine ⟨?_, ?_, ?_⟩
  · exact (completion_fires_exactly_once [["cup"], ["banana"], ["book"], ["book"]]
      { quest_items := ["cup", "book"], quest_found := [],
        session_score := 0, quest_completed := false } rfl (by decide)).1
      2 (by decide)
  · exact (completion_fires_exactly_once [["cup"], ["banana"], ["book"], ["book"]]
      { quest_items := ["cup", "book"], quest_found := [],
        session_score := 0, quest_completed := false } rfl (by decide)).2.1
      2 2 (by decide) (by decide) (by decide) (by decide)
  · exact (completion_fires_exactly_once [["cup"], ["banana"], ["book"], ["book"]]
      { quest_items := ["cup", "book"], quest_found := [],
        session_score := 0, quest_completed := false } rfl (by decide)).2.2
      3 4 (by decide) (by decide) (by decide)

/-- **C1 counterexample**: the label `"cup"`, detected twice in one batch
while an unfound quest target, appears twice in the `newlyFound` list
returned by `check_detections`, and the caller applies the +50 per-find
reward twice (the session score rises by 100, not 50). -/
theorem check_detections_duplicate_cex :
    (check_detections ["cup", "cup"] ["cup", "book"] []).count "cup" = 2 ∧
    (_handle_detections ["cup", "cup"]
      { quest_items := ["cup", "book"], quest_found := [],
        session_score := 0, quest_completed := false }).1.session_score =
      100 := by
  constructor
  · decide
  · decide

/-- **C1 amended**: within a single batch duplicates do not collapse — the
count of a label in `newlyFound` equals its count in the input whenever it is
an unfound quest target (0 otherwise), and the caller applies the +50 reward
once per occurrence — while the found set still gains each label at most
once, and a label already found never reappears in `newlyFound`. -/
theorem check_detections_no_dedup (d qi qf : List String) (lbl : String)
    (s : Session) :
    ((check_detections d qi qf).count lbl =
      if lbl ∈ qi ∧ lbl ∉ qf then d.count lbl else 0) ∧
    (lbl ∈ qf → lbl ∉ check_detections d qi qf) ∧
    (s.quest_found.Nodup → (_handle_detections d s).1.quest_found.Nodup) ∧
    ((_handle_detections d s).1.session_score =
      s.session_score
        + 50 * (check_detections d s.quest_items s.quest_found).length
        + 5 * (d.filter (fun n => decide (n ∉ s.quest_items))).length) := by
  refine ⟨check_detections_count d qi qf lbl, ?_, ?_,
    handle_detections_score d s⟩
  · intro hf hmem
    exact (check_detections_mem.mp hmem).2.2 hf
  · intro hnd
    rw [handle_detections_found]
    exact foldl_setAdd_nodup _ hnd

/-- Witness for `check_detections_no_dedup`: an already-found label does not
reappear, and the found set stays duplicate-free. -/
theorem check_detections_no_dedup_witness :
    ("dog" ∉ check_detections ["cup", "dog"] ["cup", "dog"] ["dog"]) ∧
    ((_handle_detections ["cup", "dog"]
      { quest_items := ["cup", "dog"], quest_found := ["dog"],
        session_score := 0, quest_completed := false }).1.quest_found.Nodup) :=
  ⟨(check_detections_no_dedup ["cup", "dog"] ["cup", "dog"] ["dog"] "dog"
      { quest_items := ["cup", "dog"], quest_found := ["dog"],
        session_score := 0, quest_completed := false }).2.1 (by decide),
   (check_detections_no_dedup ["cup", "dog"] ["cup", "dog"] ["dog"] "dog"
      { quest_items := ["cup", "dog"], quest_found := ["dog"],
        session_score := 0, quest_completed := false }).2.2.1 (by decide)⟩

/-- **C5 counterexample**: requesting 37 labels (one more than the pool of
36) does not fail fast: `generate_quest` silently returns the whole shuffled
pool, a list of 36 labels, instead of raising an error. -/
theorem generate_quest_over_pool_cex :
    generate_quest 37 PREFERRED_CLASSES = PREFERRED_CLASSES ∧
    (generate_quest 37 PREFERRED_CLASSES).length = 36 ∧ (36 : Nat) ≠ 37 := by
  refine ⟨?_, by decide, by decide⟩
  exact List.take_of_length_le (by decide)

/-- **C5 amended**: `generate_quest n` returns `min n 36` distinct labels
drawn from the fixed preferred-label pool — exactly `n` when `n` is at most
the pool size of 36, but silently the whole pool (not an error) when `n`
exceeds it. -/
theorem generate_quest_size (n : Nat) (shuffled : List String)
    (hperm : shuffled.Perm PREFERRED_CLASSES) :
    (generate_quest n shuffled).length = min n 36 ∧
    (generate_quest n shuffled).Nodup ∧
    (∀ x ∈ generate_quest n shuffled, x ∈ PREFERRED_CLASSES) := by
  have hlen : shuffled.length = 36 := by
    rw [hperm.length_eq]; exact preferred_classes_length
  refine ⟨?_, ?_, ?_⟩
  · rw [generate_quest, List.length_take, hlen]
  · exact List.Sublist.nodup (List.take_sublist n shuffled)
      (hperm.nodup_iff.mpr preferred_classes_nodup)
  · intro x hx
    exact hperm.mem_iff.mp (List.mem_of_mem_take hx)

/-- Witness for `generate_quest_size`: a quest of 5 labels from the
identity shuffle. -/
theorem generate_quest_size_witness :
    (generate_quest 5 PREFERRED_CLASSES).length = min 5 36 ∧
    (generate_quest 5 PREFERRED_CLASSES).Nodup ∧
    (∀ x ∈ generate_quest 5 PREFERRED_CLASSES, x ∈ PREFERRED_CLASSES) :=
  generate_quest_size 5 PREFERRED_CLASSES (List.Perm.refl _)
/-- One catalog project entry. The suggestion engine in `projects.py` reads only the
`"title"` and `"materials"` keys of a project dict; the remaining keys (emoji,
difficulty, time_est, stem_tag, tagline, steps, learn) are display payload that the
engine copies verbatim and never inspects, so they are omitted from the embedding. -/
structure Project where
  title : String
  materials : List String
deriving DecidableEq, Repr

/-- `PROJECT_MAP` from `projects.py`: per-class STEM projects, in source (dict insertion) order. -/
def PROJECT_MAP : List (String × List Project) := [
  ("cup", [
    ⟨"Sound Wave Visualizer", ["cup", "plastic wrap", "rubber band", "salt", "speaker or voice"]⟩,
    ⟨"Water Density Tower", ["cup", "corn syrup", "dish soap", "water", "vegetable oil", "food coloring", "ruler"]⟩,
    ⟨"Paper Cup Trebuchet", ["cup", "ruler", "pencils", "tape", "coins", "cardboard", "foil"]⟩
  ]),
  ("bottle", [
    ⟨"Air Pressure Rocket", ["bottle", "water", "cardboard", "tape", "ruler"]⟩,
    ⟨"Bernoulli Levitator", ["bottle", "scissors", "foil", "paper"]⟩,
    ⟨"Ecosystem in a Bottle", ["bottle", "soil", "small rocks", "seedlings", "water", "plastic wrap", "rubber band"]⟩
  ]),
  ("book", [
    ⟨"Bridge Load Test", ["book", "paper", "coins", "ruler"]⟩,
    ⟨"Book Spine Barcode Decoder", ["book", "pencil", "paper", "calculator"]⟩,
    ⟨"Friction Ramp Experiment", ["book", "eraser", "fabric", "foil", "paper", "stopwatch"]⟩
  ]),
  ("chair", [
    ⟨"Pendulum Painting Machine", ["chair", "string", "cup", "paint", "water", "paper", "stopwatch"]⟩,
    ⟨"Pulley System Builder", ["chair", "string", "books", "coins", "rubber band", "bag"]⟩
  ]),
  ("laptop", [
    ⟨"Reaction Time Tester", ["laptop", "ruler", "paper", "pencil"]⟩,
    ⟨"Binary Code Translator", ["laptop", "paper", "pencil"]⟩,
    ⟨"Weather Data Grapher", ["laptop", "paper", "pencil", "ruler", "coloured pens"]⟩
  ]),
  ("cell phone", [
    ⟨"Smartphone Spectrometer", ["cell phone", "dark card", "scissors", "tape", "old CD or DVD"]⟩,
    ⟨"Slow-Motion Physics Lab", ["cell phone", "coin", "ruler", "tape"]⟩,
    ⟨"Decibel Mapping Survey", ["cell phone", "paper", "pencil", "ruler"]⟩
  ]),
  ("keyboard", [
    ⟨"Typing Speed vs. Accuracy Experiment", ["keyboard", "laptop", "paper", "pencil", "ruler"]⟩,
    ⟨"Circuit Keyboard Hack", ["keyboard", "9V battery", "LED", "wire", "screwdriver", "paper", "pencil"]⟩
  ]),
  ("mouse", [
    ⟨"Optical Sensor Dissection", ["mouse", "screwdriver", "flashlight", "paper", "pencil"]⟩,
    ⟨"Friction Surface Science Test", ["mouse", "rubber band", "paper", "fabric", "foil", "cardboard", "ruler"]⟩
  ]),
  ("remote", [
    ⟨"Infrared Light Detector", ["remote", "cell phone"]⟩,
    ⟨"Signal Strength Mapping", ["remote", "tv", "ruler", "fabric", "cardboard", "foil", "paper", "pencil"]⟩
  ]),
  ("clock", [
    ⟨"Pendulum Clock Builder", ["clock", "string", "washers or coins", "stopwatch", "ruler", "tape"]⟩,
    ⟨"Circadian Rhythm Log", ["clock", "paper", "pencil"]⟩,
    ⟨"Sundial Calibration Challenge", ["clock", "paper plate", "pencil", "marker", "tape"]⟩
  ]),
  ("backpack", [
    ⟨"Ergonomic Load Experiment", ["backpack", "clock", "books", "paper", "pencil"]⟩,
    ⟨"Insulation Efficiency Tester", ["backpack", "zip-lock bag", "water", "thermometer", "newspaper", "fabric", "foil", "cardboard", "clock"]⟩
  ]),
  ("teddy bear", [
    ⟨"Center of Gravity Hunt", ["teddy bear", "string", "chalk or marker", "pencil"]⟩,
    ⟨"Stuffing Compression Science", ["teddy bear", "cup", "ruler", "cotton balls", "foam", "paper"]⟩
  ]),
  ("scissors", [
    ⟨"Lever Mechanical Advantage Lab", ["scissors", "cardboard", "ruler", "paper", "pencil"]⟩,
    ⟨"Paper Bridge Stress Test", ["scissors", "paper", "coins", "ruler", "tape"]⟩
  ]),
  ("toothbrush", [
    ⟨"Vibrobot Racer", ["toothbrush", "tape", "battery", "ruler", "stopwatch"]⟩,
    ⟨"Plaque Acid Experiment", ["toothbrush", "eggshells", "orange juice", "cola", "milk", "water", "cups", "toothpaste"]⟩
  ]),
  ("apple", [
    ⟨"Oxidation Race", ["apple", "lemon juice", "vinegar", "salt", "water", "milk", "knife", "paper", "pencil"]⟩,
    ⟨"Density and Buoyancy Test", ["apple", "orange", "banana", "carrot", "bowl", "water", "paper", "pencil"]⟩
  ]),
  ("banana", [
    ⟨"Enzyme Ripeness Experiment", ["banana", "iodine solution", "water", "plate", "paper", "pencil"]⟩,
    ⟨"pH Strip Test Kitchen", ["banana", "water", "lemon juice", "vinegar", "baking soda", "soap", "milk", "cups"]⟩
  ]),
  ("orange", [
    ⟨"Vitamin C Titration Test", ["orange", "cornstarch", "iodine", "water", "straw", "cups", "paper", "pencil"]⟩,
    ⟨"Citrus Battery", ["orange", "copper coin", "galvanized nail", "wire", "LED", "tape"]⟩
  ]),
  ("couch", [
    ⟨"Coefficient of Friction Ramp", ["couch", "cushion", "books", "protractor", "ruler", "paper", "pencil"]⟩,
    ⟨"Seat Cushion Spring Science", ["couch", "ruler", "books", "bag", "paper", "pencil"]⟩
  ]),
  ("potted plant", [
    ⟨"Phototropism Tower Challenge", ["potted plant", "cardboard box", "scissors", "protractor", "ruler", "paper"]⟩,
    ⟨"Transpiration Rate Experiment", ["potted plant", "zip-lock bag", "string", "ruler", "paper", "pencil"]⟩
  ]),
  ("bowl", [
    ⟨"Standing Wave Patterns", ["bowl", "water", "flour or glitter", "speaker or phone"]⟩,
    ⟨"Archimedes Volume Calculator", ["bowl", "water", "measuring cup", "rocks", "apple", "soap bar", "key", "paper", "pencil"]⟩
  ]),
  ("spoon", [
    ⟨"Spoon Convex/Concave Mirror Lab", ["spoon", "paper", "pencil", "ruler"]⟩,
    ⟨"Electrostatics Bender", ["spoon", "wool fabric", "water", "ruler"]⟩
  ]),
  ("fork", [
    ⟨"Balancing Fork Gravity Trick", ["fork", "coin", "toothpick", "cup", "playdough or clay"]⟩,
    ⟨"Surface Tension Measurement", ["fork", "water", "dish soap", "salt", "sugar", "alcohol", "oil", "tissue", "cup"]⟩
  ]),
  ("vase", [
    ⟨"Resonant Frequency Finder", ["vase", "water", "ruler", "phone with piano app", "paper", "pencil"]⟩,
    ⟨"Capillary Action Dye Race", ["vase", "water", "food coloring", "white flowers or celery", "pen", "ruler"]⟩
  ]),
  ("bed", [
    ⟨"Sleep Position Pressure Map", ["bed", "paper", "flour", "ruler", "pencil"]⟩,
    ⟨"Mattress Spring Constant Lab", ["bed", "books", "ruler", "scale to weigh books", "paper", "pencil"]⟩
  ]),
  ("tv", [
    ⟨"Pixel Colour Mixer", ["tv", "magnifying glass or plastic wrap", "water", "paper", "pencil"]⟩,
    ⟨"Screen Refresh Rate Test", ["tv", "cell phone", "paper", "pencil"]⟩
  ]),
  ("sink", [
    ⟨"Water Filter Engineering Challenge", ["sink", "bottle", "cotton balls", "sand", "gravel", "soil", "water", "cups"]⟩,
    ⟨"Soap Surface Tension Lab", ["sink", "coin", "water", "dish soap", "straw", "paper", "pencil"]⟩
  ]),
  ("refrigerator", [
    ⟨"Heat Transfer Insulation Race", ["refrigerator", "ice", "cups", "foil", "newspaper", "fabric", "cardboard", "ruler", "clock"]⟩,
    ⟨"Cooling Rate Curve", ["refrigerator", "water", "cup", "cooking thermometer", "microwave", "clock", "paper", "pencil"]⟩
  ]),
  ("umbrella", [
    ⟨"Parachute Drop Science", ["umbrella", "coins", "bag", "stopwatch", "ruler", "plastic bag"]⟩,
    ⟨"Wind Speed Anemometer", ["umbrella", "cups", "straws", "tape", "pin", "stopwatch", "paper", "pencil"]⟩
  ]),
  ("cake", [
    ⟨"Baking Soda CO₂ Inflator", ["cake", "baking soda", "vinegar", "bottle", "balloon", "funnel", "ruler"]⟩,
    ⟨"Yeast Fermentation Test", ["cake", "yeast", "sugar", "warm water", "cups", "balloons", "string", "ruler", "clock"]⟩
  ]),
  ("pizza", [
    ⟨"Geometry of the Slice", ["pizza", "ruler", "paper", "pencil", "calculator"]⟩,
    ⟨"Grease Stain Absorbency Test", ["pizza", "paper towel", "newspaper", "cardboard", "wax paper", "vegetable oil", "ruler"]⟩
  ]),
  ("donut", [
    ⟨"Torus Geometry Explorer", ["donut", "ruler", "calculator", "kitchen scale", "paper", "pencil"]⟩,
    ⟨"Sugar Crystallization Lab", ["donut", "sugar", "water", "jar", "string", "pencil", "stove or microwave"]⟩
  ]),
  ("sandwich", [
    ⟨"Calorie Estimation Challenge", ["sandwich", "kitchen scale", "food labels", "calculator", "paper", "pencil"]⟩,
    ⟨"Mold Growth Conditions Experiment", ["sandwich", "bread", "zip-lock bags", "water", "ruler", "clock", "paper", "pencil"]⟩
  ]),
  ("carrot", [
    ⟨"Osmosis Shrinking Lab", ["carrot", "salt", "water", "ruler", "knife", "cups", "paper", "pencil"]⟩,
    ⟨"Regrowth Growth Rate Tracker", ["carrot", "water", "shallow dish", "ruler", "paper", "pencil"]⟩
  ]),
  ("person", [
    ⟨"Body Proportion Golden Ratio", ["person", "ruler", "tape measure", "paper", "pencil", "calculator"]⟩,
    ⟨"Lung Capacity Spirometer", ["person", "2-litre bottle", "bowl", "water", "straw", "marker", "ruler"]⟩
  ]),
  ("cat", [
    ⟨"Reaction Time Comparison: Human vs. Cat", ["cat", "string", "ruler", "cell phone", "stopwatch", "paper", "pencil"]⟩,
    ⟨"Pet Behaviour Ethogram", ["cat", "paper", "pencil", "clock", "ruler", "coloured pens"]⟩
  ]),
  ("dog", [
    ⟨"Dog Hearing Frequency Test", ["dog", "phone with tone generator app", "paper", "pencil"]⟩,
    ⟨"Operant Conditioning Experiment", ["dog", "treats", "paper", "pencil", "clock"]⟩
  ])
]

/-- `COMBO_MAP` from `projects.py`: combo projects keyed by required-label frozensets
(modelled as lists used only through membership), in source (dict insertion) order. -/
def COMBO_MAP : List (List String × Project) := [
  (["bottle", "balloon"], ⟨"Gas Law Demonstrator", ["bottle", "balloon", "bowl", "ice", "warm water", "string", "ruler"]⟩),
  (["cup", "spoon"], ⟨"Non-Newtonian Fluid Lab", ["cup", "spoon", "cornstarch", "water"]⟩),
  (["bottle", "cup"], ⟨"Hydraulic Lift Model", ["bottle", "cup", "straw", "clay", "water", "rubber band", "ruler"]⟩),
  (["apple", "orange"], ⟨"Vitamin C Comparative Titration", ["apple", "orange", "iodine", "cornstarch", "water", "cups", "straw"]⟩),
  (["bowl", "spoon"], ⟨"Standing Wave Resonance Mapper", ["bowl", "spoon", "water", "ruler", "phone with piano app", "paper", "pencil"]⟩),
  (["laptop", "book"], ⟨"Comparative Reading Speed Study", ["laptop", "book", "printer or pen", "stopwatch", "paper", "pencil"]⟩),
  (["cell phone", "ruler"], ⟨"Gravity Constant Calculator", ["cell phone", "ruler", "coin", "tape", "paper", "pencil", "calculator"]⟩),
  (["scissors", "paper"], ⟨"Möbius Strip Topology Explorer", ["scissors", "paper", "tape", "pen", "ruler"]⟩),
  (["carrot", "salt"], ⟨"Osmosis Quantification Experiment", ["carrot", "salt", "water", "cups", "kitchen scale", "ruler", "paper", "pencil"]⟩),
  (["umbrella", "stopwatch"], ⟨"Air Resistance Force Calculator", ["umbrella", "stopwatch", "ruler", "kitchen scale", "paper", "pencil", "calculator"]⟩),
  (["fork", "spoon"], ⟨"Balanced Utensil Center of Mass Demo", ["fork", "spoon", "toothpick", "cup"]⟩),
  (["toothbrush", "baking soda"], ⟨"Acid Erosion Protection Test", ["toothbrush", "baking soda", "eggshells", "cola", "cups", "toothpaste"]⟩),
  (["clock", "pendulum"], ⟨"Pendulum Period vs. Length Verification", ["clock", "string", "washer", "ruler", "stopwatch", "paper", "pencil", "calculator"]⟩)
]

/-- A project dict as it appears in the result list of
`get_project_suggestions`: the copied project annotated with the `"_score"`
and `"_is_combo"` keys. -/
structure Suggestion where
  project : Project
  score : Nat
  isCombo : Bool
deriving DecidableEq, Repr

/-- `len(set(project.get("materials", [])) & detected_set)`: the number of
distinct materials of a project that are currently detected. -/
def materialScore (materials detected : List String) : Nat :=
  (materials.dedup.filter (fun m => decide (m ∈ detected))).length

/-- `PROJECT_MAP.get(obj_name, [])`: dict lookup with default. -/
def pmGet (m : List (String × List Project)) (k : String) : List Project :=
  match m.find? (fun kp => kp.1 == k) with
  | some kp => kp.2
  | none => []

/-- Step 1 of `get_project_suggestions` (the combo pass): for each combo key
(in catalog order) whose labels are all detected, annotate a copy of its
project with score 1000 and the combo flag, appending it unless its title was
already selected. -/
def comboPass (cm : List (List String × Project)) (detected : List String)
    (results : List Suggestion) (seen : List String) :
    List Suggestion × List String :=
  match cm with
  | [] => (results, seen)
  | (key, project) :: rest =>
    if key.all (fun k => decide (k ∈ detected)) then
      if project.title ∈ seen then comboPass rest detected results seen
      else
        comboPass rest detected (results ++ [⟨project, 1000, true⟩])
          (seen ++ [project.title])
    else comboPass rest detected results seen

/-- The body of step 2 of `get_project_suggestions` for one catalog project:
skip if the title was already selected, otherwise annotate a copy with the
material-overlap score. The accumulator is `(results, seen_titles)`. -/
def singleStep (detected : List String) (acc : List Suggestion × List String)
    (project : Project) : List Suggestion × List String :=
  if project.title ∈ acc.2 then acc
  else (acc.1 ++ [⟨project, materialScore project.materials detected, false⟩],
        acc.2 ++ [project.title])

/-- Steps 1–2 of `get_project_suggestions`: the combo pass followed by the
single-object pass over every detected name (in input order). -/
def allCandidates (detected_names : List String) :
    List Suggestion × List String :=
  detected_names.foldl
    (fun acc obj => (pmGet PROJECT_MAP obj).foldl (singleStep detected_names) acc)
    (comboPass COMBO_MAP detected_names [] [])

/-- `results.sort(key=lambda x: x["_score"], reverse=True)`: Python's sort is
stable and `reverse=True` keeps the original order of equal keys, which is
exactly insertion sort into descending score order. -/
def sortDesc (l : List Suggestion) : List Suggestion :=
  l.insertionSort (fun a b => b.score ≤ a.score)

/-- Python list slicing `l[:n]` for an `int` bound: a non-negative `n` takes
the first `n` elements; a negative `n` drops the last `-n`. -/
def pySliceTo {α : Type} (l : List α) (n : Int) : List α :=
  if 0 ≤ n then l.take n.toNat else l.take (l.length - (-n).toNat)

/-- `get_project_suggestions` from `utils/projects.py`. -/
def get_project_suggestions (detected_names : List String)
    (max_results : Int) : List Suggestion :=
  pySliceTo (sortDesc (allCandidates detected_names).1) max_results

/-- The ranked candidate list before truncation (steps 1–3 of the source). -/
def rankedCandidates (detected_names : List String) : List Suggestion :=
  sortDesc (allCandidates detected_names).1

/-- **C4 counterexample**: with `maxResults = -1` (which is `≤ 0`) and a
single detected `"cup"`, the result is not empty — Python's `[: -1]` slice
drops only the last candidate, leaving two of the three cup projects. -/
theorem get_project_suggestions_negative_cex :
    (get_project_suggestions ["cup"] (-1)).length = 2 ∧ (2 : Nat) ≠ 0 := by
  constructor
  · rfl
  · decide

/-- **C4 amended**: `maxResults = 0` yields the empty list, but a strictly
negative `maxResults` yields the ranked candidate list with its last
`-maxResults` entries dropped (Python slice semantics), which is nonempty
whenever there are more candidates than `-maxResults`. -/
theorem get_project_suggestions_nonpos (detected_names : List String)
    (m : Int) :
    (get_project_suggestions detected_names 0 = []) ∧
    (m < 0 → get_project_suggestions detected_names m =
      (rankedCandidates detected_names).take
        ((rankedCandidates detected_names).length - (-m).toNat)) := by
  constructor
  · rw [get_project_suggestions, pySliceTo]
    simp
  · intro hm
    rw [get_project_suggestions, pySliceTo, if_neg (by exact not_le.mpr hm)]
    rfl

/-- Witness for `get_project_suggestions_nonpos`: slicing with `-1` on the
cup candidates keeps all but the last ranked candidate. -/
theorem get_project_suggestions_nonpos_witness :
    (get_project_suggestions ["cup"] 0 = []) ∧
    (get_project_suggestions ["cup"] (-1) =
      (rankedCandidates ["cup"]).take
        ((rankedCandidates ["cup"]).length - (-(-1 : Int)).toNat)) :=
  ⟨(get_project_suggestions_nonpos ["cup"] (-1)).1,
   (get_project_suggestions_nonpos ["cup"] (-1)).2 (by decide)⟩
theorem materialScore_le (m d : List String) : materialScore m d ≤ m.length :=
  le_trans (List.length_filter_le _ _) (List.Sublist.length_le (List.dedup_sublist m))

theorem pm_materials_bound :
    ∀ kp ∈ PROJECT_MAP, ∀ p ∈ kp.2, p.materials.length < 1000 := by decide

theorem pmGet_materials (k : String) (p : Project)
    (h : p ∈ pmGet PROJECT_MAP k) : p.materials.length < 1000 := by
  rw [pmGet] at h
  split at h
  · next kp heq =>
    exact pm_materials_bound kp (List.mem_of_find?_eq_some heq) p h
  · exact absurd h (List.not_mem_nil p)

/-- The score discipline of the candidate list: combo entries carry the 1000
sentinel, single-object entries a material-overlap score below it. -/
def scoreInv (l : List Suggestion) : Prop :=
  ∀ x ∈ l, (x.isCombo = true → x.score = 1000) ∧
    (x.isCombo = false → x.score < 1000)

theorem scoreInv_append_one {l : List Suggestion} {x : Suggestion}
    (hl : scoreInv l)
    (hx : (x.isCombo = true → x.score = 1000) ∧
      (x.isCombo = false → x.score < 1000)) :
    scoreInv (l ++ [x]) := by
  intro y hy
  rcases List.mem_append.mp hy with h | h
  · exact hl y h
  · rw [List.mem_singleton] at h
    rw [h]
    exact hx

theorem comboPass_scoreInv (cm : List (List String × Project))
    (detected : List String) (results : List Suggestion) (seen : List String)
    (h : scoreInv results) :
    scoreInv (comboPass cm detected results seen).1 := by
  induction cm generalizing results seen with
  | nil => exact h
  | cons kp rest ih =>
    rw [comboPass]
    split
    · split
      · exact ih results seen h
      · exact ih _ _ (scoreInv_append_one h (by simp))
    · exact ih results seen h

theorem singleFold_scoreInv (detected : List String) (ps : List Project)
    (hps : ∀ p ∈ ps, p.materials.length < 1000)
    (acc : List Suggestion × List String) (h : scoreInv acc.1) :
    scoreInv (ps.foldl (singleStep detected) acc).1 := by
  induction ps generalizing acc with
  | nil => exact h
  | cons p rest ih =>
    have hstep : scoreInv (singleStep detected acc p).1 := by
      rw [singleStep]
      split
      · exact h
      · refine scoreInv_append_one h ⟨by simp, fun _ => ?_⟩
        exact lt_of_le_of_lt (materialScore_le p.materials detected)
          (hps p (List.mem_cons_self p rest))
    exact ih (fun q hq => hps q (List.mem_cons_of_mem p hq)) _ hstep

theorem outerFold_scoreInv (detected : List String) (objs : List String)
    (acc : List Suggestion × List String) (h : scoreInv acc.1) :
    scoreInv (objs.foldl
      (fun acc obj => (pmGet PROJECT_MAP obj).foldl (singleStep detected) acc)
      acc).1 := by
  induction objs generalizing acc with
  | nil => exact h
  | cons obj rest ih =>
    rw [List.foldl_cons]
    exact ih _ (singleFold_scoreInv detected _
      (fun p hp => pmGet_materials obj p hp) acc h)

theorem allCandidates_scoreInv (detected_names : List String) :
    scoreInv (allCandidates detected_names).1 := by
  rw [allCandidates]
  exact outerFold_scoreInv detected_names detected_names _
    (comboPass_scoreInv COMBO_MAP detected_names [] []
      (fun x hx => absurd hx (List.not_mem_nil x)))

theorem sortDesc_sorted (l : List Suggestion) :
    List.Pairwise (fun a b : Suggestion => b.score ≤ a.score) (sortDesc l) := by
  haveI h1 : IsTotal Suggestion (fun a b : Suggestion => b.score ≤ a.score) :=
    ⟨fun a b => le_total b.score a.score⟩
  haveI h2 : IsTrans Suggestion (fun a b : Suggestion => b.score ≤ a.score) :=
    ⟨fun a b c hab hbc => le_trans hbc hab⟩
  exact List.sorted_insertionSort _ l

theorem sortDesc_perm (l : List Suggestion) : (sortDesc l).Perm l :=
  List.perm_insertionSort _ l

/-- **C2**: for every detected-label list and every `maxResults ≥ 1`, every
combo suggestion in the returned list is ranked strictly before every
single-object suggestion: a single-object score is always below the 1000
combo sentinel, and the stable descending sort therefore places all combos
first. -/
theorem combos_rank_before_singles (detected_names : List String)
    (max_results : Int) (hmax : 1 ≤ max_results)
    (i j : Fin (get_project_suggestions detected_names max_results).length)
    (hs : ((get_project_suggestions detected_names max_results).get i).isCombo
      = false)
    (hc : ((get_project_suggestions detected_names max_results).get j).isCombo
      = true) :
    (j : Nat) < (i : Nat) := by
  have hsub : (get_project_suggestions detected_names max_results).Sublist
      (sortDesc (allCandidates detected_names).1) := by
    rw [get_project_suggestions, pySliceTo]
    split
    · exact List.take_sublist _ _
    · exact List.take_sublist _ _
  have hsorted : List.Pairwise (fun a b : Suggestion => b.score ≤ a.score)
      (get_project_suggestions detected_names max_results) :=
    List.Pairwise.sublist hsub (sortDesc_sorted _)
  have hinv : ∀ x ∈ get_project_suggestions detected_names max_results,
      (x.isCombo = true → x.score = 1000) ∧
      (x.isCombo = false → x.score < 1000) := by
    intro x hx
    exact allCandidates_scoreInv detected_names x
      ((sortDesc_perm _).mem_iff.mp (hsub.subset hx))
  rcases lt_trichotomy (i : Nat) (j : Nat) with hlt | heq | hgt
  · exfalso
    have hij := List.pairwise_iff_get.mp hsorted i j hlt
    have h1000 := (hinv _ (List.get_mem _ _ _)).1 hc
    have hlt1000 := (hinv _ (List.get_mem _ _ _)).2 hs
    rw [h1000] at hij
    exact absurd (lt_of_le_of_lt hij hlt1000) (lt_irrefl 1000)
  · exfalso
    have hij : i = j := Fin.ext heq
    rw [hij, hc] at hs
    exact Bool.noConfusion hs
  · exact hgt

/-- Witness for `combos_rank_before_singles`: with `fork` and `spoon`
detected, the fork-spoon combo project occupies index 0, before the
single-object projects. -/
theorem combos_rank_before_singles_witness :
    (1 ≤ (3 : Int)) ∧
    ((get_project_suggestions ["fork", "spoon"] 3).get
      ⟨0, by decide⟩).isCombo = true ∧
    ((get_project_suggestions ["fork", "spoon"] 3).get
      ⟨1, by decide⟩).isCombo = false ∧
    (0 : Nat) < 1 := by
  refine ⟨by decide, by decide, by decide, ?_⟩
  exact combos_rank_before_singles ["fork", "spoon"] 3 (by decide)
    ⟨1, by decide⟩ ⟨0, by decide⟩ (by decide) (by decide)

/-- A project dict on the Python heap: the underlying project fields plus the
optional `"_score"` and `"_is_combo"` keys (absent on catalog entries, added
only on copies made by the suggestion engine). -/
structure PDict where
  base : Project
  scoreKey : Option Int
  comboKey : Option Bool
deriving DecidableEq, Repr

instance : Inhabited Project := ⟨⟨"", []⟩⟩

instance : Inhabited PDict := ⟨⟨default, none, none⟩⟩

/-- The heap of project dicts, addressed by position. `get_project_suggestions`
only ever reads catalog addresses and writes to freshly allocated copies, which
is what the frame theorem below verifies. -/
abbrev Store : Type := List PDict

/-- `p = dict(project)` followed by `p["_score"] = v` and
`p["_is_combo"] = c`: allocate a shallow copy of `p` at the end of the store
(its address is the pre-allocation length) and write the two annotation keys
at that address. -/
def allocAnnotate (s : Store) (p : PDict) (v : Int) (c : Bool) : Store :=
  let s1 : List PDict := s ++ [p]
  let s2 := s1.set s.length { (s1.getD s.length default) with scoreKey := some v }
  s2.set s.length { (s2.getD s.length default) with comboKey := some c }

/-- The combo pass of `get_project_suggestions` on the heap: `cm` lists the
combo keys with the catalog addresses of their project dicts. -/
def comboPassH (detected : List String) :
    List (List String × Nat) → List Nat → List String → Store →
    List Nat × List String × Store
  | [], results, seen, s => (results, seen, s)
  | (key, addr) :: rest, results, seen, s =>
    if key.all (fun k => decide (k ∈ detected)) then
      if ((allocAnnotate s (s.getD addr default) 1000 true).getD s.length
          default).base.title ∈ seen then
        comboPassH detected rest results seen
          (allocAnnotate s (s.getD addr default) 1000 true)
      else
        comboPassH detected rest (results ++ [s.length])
          (seen ++ [((allocAnnotate s (s.getD addr default) 1000 true).getD
            s.length default).base.title])
          (allocAnnotate s (s.getD addr default) 1000 true)
    else comboPassH detected rest results seen s

/-- `PROJECT_MAP.get(obj_name, [])` on the heap: the catalog addresses of the
projects filed under a label. -/
def pmGetA (m : List (String × List Nat)) (k : String) : List Nat :=
  match m.find? (fun kp => kp.1 == k) with
  | some kp => kp.2
  | none => []

/-- The inner loop of the single-object pass for one label: skip titles
already selected, otherwise allocate the annotated copy of the catalog dict. -/
def singleProjH (detected : List String) :
    List Nat → List Nat → List String → Store →
    List Nat × List String × Store
  | [], results, seen, s => (results, seen, s)
  | addr :: rest, results, seen, s =>
    if (s.getD addr default).base.title ∈ seen then
      singleProjH detected rest results seen s
    else
      singleProjH detected rest (results ++ [s.length])
        (seen ++ [(s.getD addr default).base.title])
        (allocAnnotate s (s.getD addr default)
          (materialScore (s.getD addr default).base.materials detected) false)

/-- The single-object pass: iterate the detected names in order. -/
def singlePassH (pm : List (String × List Nat)) (detected : List String) :
    List String → List Nat → List String → Store →
    List Nat × List String × Store
  | [], results, seen, s => (results, seen, s)
  | obj :: rest, results, seen, s =>
    singlePassH pm detected rest
      (singleProjH detected (pmGetA pm obj) results seen s).1
      (singleProjH detected (pmGetA pm obj) results seen s).2.1
      (singleProjH detected (pmGetA pm obj) results seen s).2.2

/-- `x["_score"]` read from the heap (every result dict has the key; `0` is a
never-used fallback for out-of-range reads). -/
def addrScore (s : Store) (a : Nat) : Int :=
  ((s.getD a default).scoreKey).getD 0

/-- The in-place stable descending sort of the result list of addresses by
their `"_score"` values. -/
def sortDescA (s : Store) (l : List Nat) : List Nat :=
  l.insertionSort (fun a b => addrScore s b ≤ addrScore s a)

/-- `get_project_suggestions` on the heap: combo pass, single pass, stable
sort of the collected addresses, slice — returning the result addresses and
the final heap. -/
def runSuggestionsH (cm : List (List String × Nat))
    (pm : List (String × List Nat)) (detected_names : List String)
    (max_results : Int) (s : Store) : List Nat × Store :=
  (pySliceTo
      (sortDescA
        (singlePassH pm detected_names detected_names
          (comboPassH detected_names cm [] [] s).1
          (comboPassH detected_names cm [] [] s).2.1
          (comboPassH detected_names cm [] [] s).2.2).2.2
        (singlePassH pm detected_names detected_names
          (comboPassH detected_names cm [] [] s).1
          (comboPassH detected_names cm [] [] s).2.1
          (comboPassH detected_names cm [] [] s).2.2).1)
      max_results,
   (singlePassH pm detected_names detected_names
      (comboPassH detected_names cm [] [] s).1
      (comboPassH detected_names cm [] [] s).2.1
      (comboPassH detected_names cm [] [] s).2.2).2.2)

/-- The heap at module load: the combo project dicts followed by the
per-class project dicts, in catalog order, none carrying the annotation
keys. -/
def catalogStore : Store :=
  COMBO_MAP.map (fun kp =>
    ({ base := kp.2, scoreKey := none, comboKey := none } : PDict)) ++
  PROJECT_MAP.foldr (fun kp acc =>
    kp.2.map (fun p =>
      ({ base := p, scoreKey := none, comboKey := none } : PDict)) ++ acc) []

theorem prefix_append_one {s0 s : List PDict} (h : s0 <+: s) (d : PDict) :
    s0 <+: s ++ [d] := by
  rcases h with ⟨t, rfl⟩
  exact ⟨t ++ [d], (List.append_assoc s0 t [d]).symm⟩

theorem prefix_set_ge {s0 s : List PDict} (h : s0 <+: s) {a : Nat}
    (ha : s0.length ≤ a) (v : PDict) : s0 <+: s.set a v := by
  rcases h with ⟨t, rfl⟩
  exact ⟨t.set (a - s0.length) v, (List.set_append_right a v ha).symm⟩

theorem allocAnnotate_frame {s0 s : Store} (h : s0 <+: s) (p : PDict)
    (v : Int) (c : Bool) : s0 <+: allocAnnotate s p v c := by
  simp only [allocAnnotate]
  exact prefix_set_ge
    (prefix_set_ge (prefix_append_one h p) (List.IsPrefix.length_le h) _)
    (List.IsPrefix.length_le h) _

theorem comboPassH_frame (detected : List String)
    (cm : List (List String × Nat)) (results : List Nat) (seen : List String)
    (s s0 : Store) (hs : s0 <+: s)
    (hr : ∀ a ∈ results, List.length s0 ≤ a) :
    s0 <+: (comboPassH detected cm results seen s).2.2 ∧
    ∀ a ∈ (comboPassH detected cm results seen s).1, List.length s0 ≤ a := by
  induction cm generalizing results seen s with
  | nil => exact ⟨hs, hr⟩
  | cons kp rest ih =>
    obtain ⟨key, addr⟩ := kp
    rw [comboPassH]
    split
    · split
      · exact ih results seen _ (allocAnnotate_frame hs _ _ _) hr
      · refine ih _ _ _ (allocAnnotate_frame hs _ _ _) ?_
        intro a ha
        rcases List.mem_append.mp ha with h | h
        · exact hr a h
        · rw [List.mem_singleton] at h
          rw [h]
          exact List.IsPrefix.length_le hs
    · exact ih results seen s hs hr

theorem singleProjH_frame (detected : List String) (addrs : List Nat)
    (results : List Nat) (seen : List String) (s s0 : Store)
    (hs : s0 <+: s) (hr : ∀ a ∈ results, List.length s0 ≤ a) :
    s0 <+: (singleProjH detected addrs results seen s).2.2 ∧
    ∀ a ∈ (singleProjH detected addrs results seen s).1,
      List.length s0 ≤ a := by
  induction addrs generalizing results seen s with
  | nil => exact ⟨hs, hr⟩
  | cons addr rest ih =>
    rw [singleProjH]
    split
    · exact ih results seen s hs hr
    · refine ih _ _ _ (allocAnnotate_frame hs _ _ _) ?_
      intro a ha
      rcases List.mem_append.mp ha with h | h
      · exact hr a h
      · rw [List.mem_singleton] at h
        rw [h]
        exact List.IsPrefix.length_le hs

theorem singlePassH_frame (pm : List (String × List Nat))
    (detected : List String) (objs : List String) (results : List Nat)
    (seen : List String) (s s0 : Store) (hs : s0 <+: s)
    (hr : ∀ a ∈ results, List.length s0 ≤ a) :
    s0 <+: (singlePassH pm detected objs results seen s).2.2 ∧
    ∀ a ∈ (singlePassH pm detected objs results seen s).1,
      List.length s0 ≤ a := by
  induction objs generalizing results seen s with
  | nil => exact ⟨hs, hr⟩
  | cons obj rest ih =>
    rw [singlePassH]
    have h1 := singleProjH_frame detected (pmGetA pm obj) results seen s s0 hs hr
    exact ih _ _ _ h1.1 h1.2

/-- **C10**: running `get_project_suggestions` on the heap never mutates the
catalog — the initial store is a prefix of the final store, so every catalog
dict (all of which carry neither `"_score"` nor `"_is_combo"`) is unchanged;
every returned suggestion address is a freshly allocated copy (at or beyond
the original store length), so the annotations live only on the copies. -/
theorem get_project_suggestions_frame (cm : List (List String × Nat))
    (pm : List (String × List Nat)) (detected_names : List String)
    (max_results : Int) :
    (catalogStore <+:
      (runSuggestionsH cm pm detected_names max_results catalogStore).2) ∧
    (∀ a ∈ (runSuggestionsH cm pm detected_names max_results catalogStore).1,
      List.length catalogStore ≤ a) ∧
    (∀ pd ∈ catalogStore, pd.scoreKey = none ∧ pd.comboKey = none) := by
  have hc := comboPassH_frame detected_names cm [] [] catalogStore catalogStore
    ⟨[], List.append_nil _⟩ (fun a ha => absurd ha (List.not_mem_nil a))
  have hsp := singlePassH_frame pm detected_names detected_names
    (comboPassH detected_names cm [] [] catalogStore).1
    (comboPassH detected_names cm [] [] catalogStore).2.1
    (comboPassH detected_names cm [] [] catalogStore).2.2
    catalogStore hc.1 hc.2
  refine ⟨hsp.1, ?_, by decide⟩
  intro a ha
  apply hsp.2
  have hsub : (runSuggestionsH cm pm detected_names max_results
      catalogStore).1.Sublist
      (sortDescA
        (singlePassH pm detected_names detected_names
          (comboPassH detected_names cm [] [] catalogStore).1
          (comboPassH detected_names cm [] [] catalogStore).2.1
          (comboPassH detected_names cm [] [] catalogStore).2.2).2.2
        (singlePassH pm detected_names detected_names
          (comboPassH detected_names cm [] [] catalogStore).1
          (comboPassH detected_names cm [] [] catalogStore).2.1
          (comboPassH detected_names cm [] [] catalogStore).2.2).1) := by
    rw [runSuggestionsH, pySliceTo]
    split
    · exact List.take_sublist _ _
    · exact List.take_sublist _ _
  exact (List.perm_insertionSort _ _).mem_iff.mp (hsub.subset ha)

/-- Witness for `get_project_suggestions_frame`: a run with a satisfied
one-label combo key allocates its copy at address 91 (the catalog length),
leaves the catalog a prefix of the final heap, and the first catalog dict
carries no annotation keys. -/
theorem get_project_suggestions_frame_witness :
    (catalogStore <+:
      (runSuggestionsH [(["cup"], 0)] [] ["cup"] 3 catalogStore).2) ∧
    (List.length catalogStore ≤ 91) ∧
    ((catalogStore.getD 0 default).scoreKey = none ∧
      (catalogStore.getD 0 default).comboKey = none) :=
  ⟨(get_project_suggestions_frame [(["cup"], 0)] [] ["cup"] 3).1,
   (get_project_suggestions_frame [(["cup"], 0)] [] ["cup"] 3).2.1 91
     (by decide),
   (get_project_suggestions_frame [(["cup"], 0)] [] ["cup"] 3).2.2
     (catalogStore.getD 0 default) (by decide)⟩
